import Mathlib

/-!
# Shallow embedding of `sparklines.py` (pandas sparklines helper)

This file embeds the single source module of the repository — a thin layer
over pandas/matplotlib that renders a numeric sequence column of a dataframe
as inline `img` sparkline tags and presents the frame as HTML — and proves
properties of the embedded functions.

Modelling conventions:
* Python values appearing as keyword arguments are `Val`; a `**kwargs` dict is
  an association list `Kwargs` (keys are Python identifiers, hence `String`).
* A pandas `DataFrame` is an ordered association list of labelled columns,
  each column an ordered list of cells; column labels are assumed unique, as
  they are for every frame this library is used with.
* Python exceptions are the explicit `Except PyErr` monad; an exception
  propagating out of a function leaves the function's caller-visible state
  component unchanged, which the embedding returns explicitly.
* matplotlib calls are recorded as a list of `PlotCmd` drawing commands in the
  order the source issues them; rasterization to PNG bytes plus base64
  encoding (`plt.savefig` into a `BytesIO` buffer, then `base64.b64encode`)
  is abstracted as a concrete injective textual encoding of the command list,
  since the claims under study concern which commands are issued and how the
  result is wrapped, not the rasterizer's pixel output.
* Python keyword-argument binding at the `create` → `sparkline` call site is
  modelled by name: entries of the options map whose key names a declared
  `sparkline` parameter bind that parameter, the remaining entries are
  forwarded to the `plt.plot` call, mirroring `sparkline(x, figsize=figsize,
  **kwargs)` in the source.
-/

namespace Sparklines

/-- A Python value usable as a keyword-argument value, a column label, or a
plot-option value: booleans, numbers, strings, and `(w, h)` size tuples.
Numeric values are rationals (the source only ever manipulates them
symbolically; no float rounding is involved in any property studied here). -/
inductive Val where
  | bool (b : Bool)
  | num (q : ℚ)
  | str (s : String)
  | size (w h : ℚ)
deriving DecidableEq, Repr

/-- A `**kwargs` options map: keyword names to values, in call order. -/
abbrev Kwargs := List (String × Val)

/-- One dataframe cell: either a numeric sequence (the data column to be
plotted), a string (e.g. a rendered `img` tag), or a plain number. -/
inductive Cell where
  | seq (xs : List ℚ)
  | str (s : String)
  | num (q : ℚ)
deriving DecidableEq, Repr

/-- The Python exceptions the embedded code can raise. -/
inductive PyErr where
  /-- `KeyError`: a requested column label is absent from the frame. -/
  | keyError (k : Val)
  /-- `ValueError: min() arg is an empty sequence` (line 100 of the source). -/
  | valueErrorEmptyMin
  /-- `IndexError`: list index out of range. -/
  | indexError
  /-- `TypeError`: `list(data)` applied to a non-iterable cell. -/
  | typeError
deriving DecidableEq, Repr

/-- One matplotlib call issued by `sparkline`, recorded in source order. -/
inductive PlotCmd where
  /-- `plt.figure(figsize=figsize)` -/
  | figure (figsize : Val)
  /-- `plt.plot(data, **kwargs)` -/
  | line (ys : List ℚ) (kwargs : Kwargs)
  /-- `ax.axis('off')` -/
  | axisOff
  /-- `plt.fill_between(range(plot_len), data, plot_len*[plot_min], color=..., alpha=...)` -/
  | fillBetween (xs : List Nat) (upper : List ℚ) (lower : List ℚ) (color : Val) (alpha : Val)
  /-- `plt.plot(point_x, data[point_x], color=point_fill, marker=point_marker,
  markeredgecolor=point_color, markersize=point_size, alpha=point_alpha,
  clip_on=False)` -/
  | pointAt (x : Nat) (y : ℚ) (fillColor : Val) (marker : Val) (edgeColor : Val)
      (size : Val) (alpha : Val) (clipOn : Bool)
  /-- `fig.subplots_adjust(side=v)` -/
  | adjust (side : String) (v : ℚ)
deriving DecidableEq, Repr

/-- Exception-propagating map, the semantics of Python's `Series.map` /
list comprehension: apply `f` left to right, the first exception aborts. -/
def mapE (f : α → Except PyErr β) : List α → Except PyErr (List β)
  | [] => Except.ok []
  | x :: xs =>
    match f x with
    | Except.error e => Except.error e
    | Except.ok y =>
      match mapE f xs with
      | Except.error e => Except.error e
      | Except.ok ys => Except.ok (y :: ys)

/-- Python's `min` over a list: `none` on the empty list (where CPython raises
`ValueError`), otherwise the least element. -/
def listMin : List ℚ → Option ℚ
  | [] => none
  | x :: xs => some (xs.foldl min x)

/-- A pandas dataframe: ordered, uniquely-labelled columns of cells. -/
structure DataFrame where
  cols : List (Val × List Cell)
deriving DecidableEq, Repr

/-- `df[k]` on an association list of columns: first column labelled `k`. -/
def getColList (k : Val) : List (Val × List Cell) → Option (List Cell)
  | [] => none
  | p :: rest => if p.1 = k then some p.2 else getColList k rest

/-- `df[k]`: the column labelled `k`, or `none` where pandas raises `KeyError`. -/
def DataFrame.getCol (df : DataFrame) (k : Val) : Option (List Cell) :=
  getColList k df.cols

/-- `df[k] = v` on the column list: replace the (unique) column labelled `k`,
or append a new column at the end when no column has that label. -/
def setColList (k : Val) (v : List Cell) : List (Val × List Cell) → List (Val × List Cell)
  | [] => [(k, v)]
  | p :: rest => if p.1 = k then (k, v) :: rest else p :: setColList k v rest

/-- `df[k] = v`: overwrite column `k` in place, or append it. -/
def DataFrame.setCol (df : DataFrame) (k : Val) (v : List Cell) : DataFrame :=
  ⟨setColList k v df.cols⟩

/-- Number of rows: the length of the first column (0 for a columnless frame). -/
def DataFrame.nrows (df : DataFrame) : Nat :=
  match df.cols with
  | [] => 0
  | p :: _ => p.2.length

/-- Well-formedness: every column has exactly `nrows` cells. -/
def DataFrame.Wf (df : DataFrame) : Prop :=
  ∀ p ∈ df.cols, p.2.length = df.nrows

instance (df : DataFrame) : Decidable df.Wf :=
  List.decidableBAll _ df.cols

/-- `df[ks]` column selection: the requested columns in the requested order;
`KeyError` when any requested label is absent. -/
def DataFrame.selectCols (df : DataFrame) (ks : List Val) : Except PyErr DataFrame :=
  match mapE (fun k =>
      match df.getCol k with
      | some c => Except.ok (k, c)
      | none => Except.error (PyErr.keyError k)) ks with
  | Except.error e => Except.error e
  | Except.ok l => Except.ok ⟨l⟩

/-- The module-level CSS string `jupyter_table_css` (source lines 13–43),
transcribed verbatim; CSS braces are written with `\x7b`/`\x7d` escapes. -/
def jupyter_table_css : String :=
  "body \x7b\n                        margin: 0;\n                        font-family: Helvetica;\n                    \x7d\n                    table.dataframe \x7b\n                        border-collapse: collapse;\n                        border: none;\n                    \x7d\n                    table.dataframe tr \x7b\n                        border: none;\n                    \x7d\n                    table.dataframe td, table.dataframe th \x7b\n                        margin: 0;\n                        border: 1px solid #000000;\n                        padding-left: 0.25em;\n                        padding-right: 0.25em;\n                    \x7d\n                    table.dataframe th:not(:empty) \x7b\n                        background-color: #f2f2f2;\n                        text-align: left;\n                        font-weight: bold;\n                    \x7d\n                    table.dataframe tr:nth-child(2) th:empty \x7b\n                        border-left: none;\n                        border-right: 1px dashed #888;\n                    \x7d\n                    table.dataframe td \x7b\n                        border: 1px solid #bababa;\n                        background-color: #ffffff;\n                    \x7d\n                    "

/-- The module-level `html_head` string (source lines 45–51): document
skeleton up to `<body>`, with the stylesheet inlined. -/
def html_head : String :=
  "<!DOCTYPE html>\n            <html>\n            <head>\n            <style>" ++
    jupyter_table_css ++
    "</style>\n            </head>\n            <body>"

/-- The module-level `html_tail` string (source lines 53–54). -/
def html_tail : String := "</body>\n               </html>"

/-- The two process-wide pandas display options the module touches:
`display.max_colwidth` and `display.max_seq_items`. -/
structure PdOptions where
  max_colwidth : Int
  max_seq_items : Int
deriving DecidableEq, Repr

/-- The pandas library defaults for the two options
(`display.max_colwidth = 50`, `display.max_seq_items = 100`), the values
`pd.reset_option` restores. -/
def defaultOptions : PdOptions := ⟨50, 100⟩

/-- `column_sparklines` (source lines 56–61):
`pd.set_option('display.max_colwidth', -1)` then
`pd.set_option('display.max_seq_items', 2)`. -/
def column_sparklines (o : PdOptions) : PdOptions :=
  { o with max_colwidth := -1, max_seq_items := 2 }

/-- `column_reset` (source lines 63–66): `pd.reset_option` on both options,
which restores the library defaults (not any caller-saved values). -/
def column_reset (_ : PdOptions) : PdOptions :=
  defaultOptions

/-- Lookup of a keyword in a `**kwargs` map (`'figsize' in kwargs` /
`kwargs['figsize']`). -/
def kwLookup (kwargs : Kwargs) (k : String) : Option Val :=
  match kwargs with
  | [] => none
  | p :: rest => if p.1 = k then some p.2 else kwLookup rest k

/-- A keyword argument with a default: the bound value when the caller passed
the keyword, the declared default otherwise. -/
def kwArgD (kwargs : Kwargs) (k : String) (d : Val) : Val :=
  (kwLookup kwargs k).getD d

/-- The declared parameter names of `sparkline` (source lines 68–72): keys of
an options map passed onward to `sparkline` that bind these parameters rather
than reaching `plt.plot`. -/
def sparklineParamNames : List String :=
  ["data", "point", "point_color", "point_marker", "point_fill", "point_size",
   "point_alpha", "fill", "fill_color", "fill_alpha", "figsize"]

/-- The residue of an options map forwarded to `plt.plot` by `sparkline`'s
own `**kwargs` (everything not binding a declared `sparkline` parameter). -/
def plotKwargs (kwargs : Kwargs) : Kwargs :=
  kwargs.filter (fun p => !(sparklineParamNames.contains p.1))

/-- Model of rasterization plus base64 (`plt.savefig` into a `BytesIO`
buffer, then `base64.b64encode(...).decode('utf-8')`, source lines 125–128):
the payload is a concrete injective textual encoding of the issued drawing
commands; the pixel-level PNG encoder is outside the embedded program. -/
def pngB64 (cmds : List PlotCmd) : String :=
  reprStr cmds

/-- The inline-image markup built on source line 128:
`"""<img src="data:image/png;base64,%s"/>""" % ...`. -/
def imgTag (payload : String) : String :=
  "<img src=\"data:image/png;base64," ++ payload ++ "\"/>"

/-- `sparkline` (source lines 68–129). Parameters and defaults follow the
source signature; `data` is one dataframe cell (`list(data)` fails with
`TypeError` on a non-sequence cell). Mirrors the source statement by
statement: `min(data)` raises `ValueError` on an empty sequence before any
drawing happens; the fill and terminal-marker calls are issued
unconditionally — neither the `point` nor the `fill` flag is ever read by
the body. Returns the drawing commands in issue order together with the
returned `img` tag. -/
def sparkline (data : Cell) (point : Val) (point_color : Val) (point_marker : Val)
    (point_fill : Val) (point_size : Val) (point_alpha : Val)
    (fill : Val) (fill_color : Val) (fill_alpha : Val)
    (figsize : Val) (kwargs : Kwargs) : Except PyErr (List PlotCmd × String) :=
  match data with
  | Cell.seq xs =>
    let plot_len := xs.length
    match listMin xs with
    | none => Except.error PyErr.valueErrorEmptyMin
    | some plot_min =>
      let point_x := plot_len - 1
      match xs.get? point_x with
      | none => Except.error PyErr.indexError
      | some lastVal =>
        let cmds : List PlotCmd :=
          [PlotCmd.figure figsize,
           PlotCmd.line xs kwargs,
           PlotCmd.axisOff,
           PlotCmd.fillBetween (List.range plot_len) xs
             (List.replicate plot_len plot_min) fill_color fill_alpha,
           PlotCmd.pointAt point_x lastVal point_fill point_marker point_color
             point_size point_alpha false,
           PlotCmd.adjust "left" 0,
           PlotCmd.adjust "right" (99/100),
           PlotCmd.adjust "bottom" (1/10),
           PlotCmd.adjust "top" (9/10)]
        Except.ok (cmds, imgTag (pngB64 cmds))
  | _ => Except.error PyErr.typeError

/-- The call `sparkline(x, figsize=figsize, **kwargs)` made per row by
`create` (source lines 176–177 and 183–185), under Python keyword binding:
a `data` or `figsize` key in the options map collides with an argument this
call already supplies (`x` positionally, `figsize=figsize` explicitly) and
raises a duplicate-keyword `TypeError`; any other key naming a declared
`sparkline` parameter binds that parameter; the rest become `sparkline`'s
own `**kwargs`. -/
def callSparkline (x : Cell) (figsize : Val) (kwargs : Kwargs) :
    Except PyErr (List PlotCmd × String) :=
  if (kwLookup kwargs "data").isSome || (kwLookup kwargs "figsize").isSome then
    Except.error PyErr.typeError
  else
  sparkline x
    (kwArgD kwargs "point" (Val.bool true))
    (kwArgD kwargs "point_color" (Val.str "red"))
    (kwArgD kwargs "point_marker" (Val.str "."))
    (kwArgD kwargs "point_fill" (Val.str "red"))
    (kwArgD kwargs "point_size" (Val.num 6))
    (kwArgD kwargs "point_alpha" (Val.num 1))
    (kwArgD kwargs "fill" (Val.bool true))
    (kwArgD kwargs "fill_color" (Val.str "blue"))
    (kwArgD kwargs "fill_alpha" (Val.num (1/10)))
    figsize
    (plotKwargs kwargs)

/-- One cell of the destination column: the `img` tag string returned by the
per-row `sparkline` call. -/
def renderCell (x : Cell) (figsize : Val) (kwargs : Kwargs) : Except PyErr Cell :=
  match callSparkline x figsize kwargs with
  | Except.error e => Except.error e
  | Except.ok r => Except.ok (Cell.str r.2)

/-- `sparkline_data.map(lambda x: sparkline(x, figsize=figsize, **kwargs))`:
render every cell of the source column in row order, first exception aborts. -/
def renderAll (cells : List Cell) (figsize : Val) (kwargs : Kwargs) :
    Except PyErr (List Cell) :=
  mapE (fun x => renderCell x figsize kwargs) cells

/-- The figsize `create` actually uses (source lines 158–161): the `figsize`
key of the options map when present, else the fixed default `(4, 0.25)` —
the explicit `figsize` parameter is overwritten either way. -/
def effFigsize (kwargs : Kwargs) : Val :=
  match kwLookup kwargs "figsize" with
  | some v => v
  | none => Val.size 4 (1/4)

/-- The destination column name `create` actually uses (source lines
162–165): the `title` key of the options map when present, else
`'sparklines'` — the explicit `title` parameter is overwritten either way. -/
def effTitle (kwargs : Kwargs) : Val :=
  match kwLookup kwargs "title" with
  | some v => v
  | none => Val.str "sparklines"

/-- The `columns` argument of `create`: `None` is the enclosing `Option`;
otherwise a single string name, a tuple of names, or a list of names. -/
inductive ColumnsArg where
  | str (s : String)
  | tup (l : List Val)
  | lst (l : List Val)
deriving DecidableEq, Repr

/-- Normalization of `columns` (source lines 167–171): a tuple becomes a
list, a single string becomes a one-element list, a list stays as is. -/
def normalizeColumns : ColumnsArg → List Val
  | ColumnsArg.str s => [Val.str s]
  | ColumnsArg.tup l => l
  | ColumnsArg.lst l => l

/-- `create` (source lines 131–186). The result's first component is the
state of the caller's `dataframe` object after the call (mutated only by the
non-copy branch's column assignment); the second is the Python return value —
`some` of the fresh frame in copy mode, `none` (Python `None`) otherwise —
or the exception that propagated. The explicit `figsize` and `title`
parameters are dead: lines 158–165 rebind both from the options map or the
fixed defaults before use. This is the function body; Python callers reach
it only through the keyword binding modelled by `createCall`, under which
the options map reaching the body never contains a `figsize` or `title` key
(those keywords bind the declared parameters at the call boundary), so the
`kwargs['figsize']`/`kwargs['title']` branches are dead code in the program.
Theorems about `create` quantify over arbitrary maps, which includes every
reachable one. -/
def create (dataframe : DataFrame) (data : Val) (figsize : Val) (title : Val)
    (copy : Bool) (columns : Option ColumnsArg) (kwargs : Kwargs) :
    DataFrame × Except PyErr (Option DataFrame) :=
  match dataframe.getCol data with
  | none => (dataframe, Except.error (PyErr.keyError data))
  | some sparkline_data =>
    let figsize := effFigsize kwargs
    let title := effTitle kwargs
    if copy then
      let columnsL : List Val :=
        match columns with
        | some cs => normalizeColumns cs
        | none => []
      match renderAll sparkline_data figsize kwargs with
      | Except.error e => (dataframe, Except.error e)
      | Except.ok out =>
        let df := DataFrame.setCol dataframe title out
        let columnsL := if title ∈ columnsL then columnsL else columnsL ++ [title]
        match df.selectCols columnsL with
        | Except.error e => (dataframe, Except.error e)
        | Except.ok dfSel => (dataframe, Except.ok (some dfSel))
    else
      match renderAll sparkline_data figsize kwargs with
      | Except.error e => (dataframe, Except.error e)
      | Except.ok out => (DataFrame.setCol dataframe title out, Except.ok none)

/-- The declared parameter names of `create` (source lines 131–132). A
keyword argument with one of these names binds the declared parameter under
Python call binding and never reaches the body's `**kwargs`. -/
def createParamNames : List String :=
  ["dataframe", "data", "figsize", "title", "copy", "columns"]

/-- The arguments already supplied by the modelled call shape
`create(dataframe, data, copy=..., columns=..., **opts)`: an `opts` entry
with one of these names duplicates an argument and makes the call raise
`TypeError` before the body runs. -/
def reservedCallNames : List String :=
  ["dataframe", "data", "copy", "columns"]

/-- Whether the caller's bundled options duplicate an argument the modelled
call shape already passes. -/
def collides (opts : Kwargs) : Bool :=
  opts.any (fun p => reservedCallNames.contains p.1)

/-- Python keyword binding at the `create` call boundary: the entries of the
caller's bundled options that actually reach the body as `**kwargs` — every
entry naming a declared parameter is routed to that parameter instead. -/
def bodyKwargs : Kwargs → Kwargs
  | [] => []
  | p :: rest =>
    if createParamNames.contains p.1 then bodyKwargs rest
    else p :: bodyKwargs rest

/-- A Python call `create(dataframe, data, copy=copy, columns=columns,
**opts)` where `opts` is the caller's bundled keyword-options map. Python
binding routes a `figsize` or `title` key of `opts` to the declared
parameter (so it never reaches the body's `**kwargs`), raises a
duplicate-keyword `TypeError` when `opts` names an argument the call already
supplies, and hands only the remaining entries to the body. -/
def createCall (dataframe : DataFrame) (data : Val) (copy : Bool)
    (columns : Option ColumnsArg) (opts : Kwargs) :
    DataFrame × Except PyErr (Option DataFrame) :=
  if collides opts then (dataframe, Except.error PyErr.typeError)
  else
    create dataframe data
      (kwArgD opts "figsize" (Val.bool false))
      (kwArgD opts "title" (Val.str "sparklines"))
      copy columns (bodyKwargs opts)

/-- HTML escaping of one rendered cell, as pandas applies when `escape=True`. -/
def escapeCell (s : String) : String :=
  ((s.replace "&" "&amp;").replace "<" "&lt;").replace ">" "&gt;"

/-- Column label as display text. -/
def valText : Val → String
  | Val.str s => s
  | Val.num q => reprStr q
  | Val.bool b => reprStr b
  | Val.size w h => reprStr (w, h)

/-- Cell content as display text. -/
def cellText : Cell → String
  | Cell.str s => s
  | Cell.num q => reprStr q
  | Cell.seq xs => reprStr xs

/-- Cell-width truncation driven by `display.max_colwidth` (a negative value,
as set by `column_sparklines`, disables truncation). -/
def clipText (o : PdOptions) (s : String) : String :=
  if 0 ≤ o.max_colwidth ∧ o.max_colwidth.toNat < s.length then
    s.take o.max_colwidth.toNat ++ "..."
  else s

/-- Model of the external pandas `DataFrame.to_html(index=..., escape=...)`
serializer: one header row then the data rows in order, each cell escaped
only when `escape` is set and clipped per the `display.max_colwidth` option.
The external library's exact markup details beyond this shape are not relied
on by any theorem below. -/
def pandasToHtml (o : PdOptions) (df : DataFrame) (index : Bool) (escape : Bool) :
    String :=
  let render := fun (s : String) => clipText o (if escape then escapeCell s else s)
  let header :=
    "<tr>" ++ (if index then "<th></th>" else "") ++
      String.join (df.cols.map (fun p => "<th>" ++ render (valText p.1) ++ "</th>")) ++
      "</tr>"
  let row := fun (i : Nat) =>
    "<tr>" ++ (if index then "<th>" ++ reprStr i ++ "</th>" else "") ++
      String.join (df.cols.map (fun p =>
        "<td>" ++ render (cellText ((p.2.get? i).getD (Cell.str ""))) ++ "</td>")) ++
      "</tr>"
  "<table border=\"1\" class=\"dataframe\">" ++ header ++
    String.join ((List.range df.nrows).map row) ++ "</table>"

/-- `show` (source lines 188–203, renamed: `show` is reserved in Lean):
widen the display options, render the frame to HTML with `escape=False` for
the interactive surface, then reset the options. Returns the options state
after the call and the markup handed to `display`. -/
def show_df (o : PdOptions) (dataframe : DataFrame) (index : Bool) :
    PdOptions × String :=
  let o1 := column_sparklines o
  let rendered := pandasToHtml o1 dataframe index false
  let o2 := column_reset o1
  (o2, rendered)

/-- `to_html` (source lines 205–222): widen the display options, serialize
with `escape=False`, reset the options, then write `html_head`, the table
string and `html_tail` in order to the file `filename + '.html'`. Returns
the options state after the call and the written file as
(name, concatenated content of the sequential writes). -/
def to_html (o : PdOptions) (dataframe : DataFrame) (filename : String) :
    PdOptions × (String × String) :=
  let o1 := column_sparklines o
  let a := pandasToHtml o1 dataframe true false
  let o2 := column_reset o1
  let content := [html_head, a, html_tail].foldl (fun acc s => acc ++ s) ""
  (o2, (filename ++ ".html", content))

/-- The terminal-marker commands among a `sparkline` result's drawing
commands (empty for an exceptional result). -/
def pointCmds (r : Except PyErr (List PlotCmd × String)) : List PlotCmd :=
  match r with
  | Except.ok p => p.1.filter (fun c =>
      match c with
      | PlotCmd.pointAt .. => true
      | _ => false)
  | Except.error _ => []

/-- The area-fill commands among a `sparkline` result's drawing commands
(empty for an exceptional result). -/
def fillCmds (r : Except PyErr (List PlotCmd × String)) : List PlotCmd :=
  match r with
  | Except.ok p => p.1.filter (fun c =>
      match c with
      | PlotCmd.fillBetween .. => true
      | _ => false)
  | Except.error _ => []

/-- Whether a Python call completed normally (no exception propagated). -/
def exceptOk (r : Except PyErr α) : Bool :=
  match r with
  | Except.ok _ => true
  | Except.error _ => false

/-- The column list before the destination column is accounted for
(source lines 167–173). -/
def columnsInit (columns : Option ColumnsArg) : List Val :=
  match columns with
  | some cs => normalizeColumns cs
  | none => []

/-- The column list actually selected in copy mode (source lines 178–180):
the normalized request with the destination column appended unless already
requested. -/
def columnsFinal (columns : Option ColumnsArg) (title : Val) : List Val :=
  if title ∈ columnsInit columns then columnsInit columns
  else columnsInit columns ++ [title]

/-- Concrete two-column, one-row frame used by the witnesses: an `x` column
holding one numeric sequence and an `id` column holding one number. -/
def wdf : DataFrame :=
  ⟨[(Val.str "x", [Cell.seq [1, 2]]), (Val.str "id", [Cell.num 7])]⟩

/-- Concrete options map carrying both a `figsize` and a `title` key. -/
def wKw : Kwargs := [("figsize", Val.size 8 1), ("title", Val.str "spk")]

/-- The rendered destination column for `wdf`'s `x` column under an empty
options map. -/
def wOutD : List Cell :=
  match renderAll [Cell.seq [1, 2]] (effFigsize []) [] with
  | Except.ok l => l
  | Except.error _ => []

/-- A concrete copy-mode `create` run on `wdf` requesting the `id` column. -/
def wC7 : DataFrame × Except PyErr (Option DataFrame) :=
  create wdf (Val.str "x") (Val.size 4 (1/4)) (Val.str "sparklines") true
    (some (ColumnsArg.lst [Val.str "id"])) []

/-- The frame returned by the `wC7` run. -/
def wC7ret : Option DataFrame :=
  match wC7.2 with
  | Except.ok r => r
  | Except.error _ => none

/-! ## Helper lemmas -/

theorem mapE_ok_length {f : α → Except PyErr β} :
    ∀ {xs : List α} {ys : List β}, mapE f xs = Except.ok ys → ys.length = xs.length := by
  intro xs
  induction xs with
  | nil =>
    intro ys h
    simp only [mapE] at h
    cases h
    rfl
  | cons x xs ih =>
    intro ys h
    simp only [mapE] at h
    cases hx : f x with
    | error e => rw [hx] at h; cases h
    | ok y =>
      rw [hx] at h
      cases hxs : mapE f xs with
      | error e => rw [hxs] at h; cases h
      | ok ys' =>
        rw [hxs] at h
        cases h
        simp [ih hxs]

theorem mapE_ok_mem {f : α → Except PyErr β} :
    ∀ {xs : List α} {ys : List β}, mapE f xs = Except.ok ys →
      ∀ y ∈ ys, ∃ x ∈ xs, f x = Except.ok y := by
  intro xs
  induction xs with
  | nil =>
    intro ys h
    simp only [mapE] at h
    cases h
    intro y hy
    cases hy
  | cons x xs ih =>
    intro ys h
    simp only [mapE] at h
    cases hx : f x with
    | error e => rw [hx] at h; cases h
    | ok y =>
      rw [hx] at h
      cases hxs : mapE f xs with
      | error e => rw [hxs] at h; cases h
      | ok ys' =>
        rw [hxs] at h
        cases h
        intro z hz
        rcases List.mem_cons.mp hz with hz | hz
        · exact ⟨x, List.mem_cons_self x xs, hz ▸ hx⟩
        · rcases ih hxs z hz with ⟨x', hx', hfx'⟩
          exact ⟨x', List.mem_cons_of_mem x hx', hfx'⟩

theorem mapE_ok_forall₂ {f : α → Except PyErr β} :
    ∀ {xs : List α} {ys : List β}, mapE f xs = Except.ok ys →
      List.Forall₂ (fun a b => f a = Except.ok b) xs ys := by
  intro xs
  induction xs with
  | nil =>
    intro ys h
    simp only [mapE] at h
    cases h
    exact List.Forall₂.nil
  | cons x xs ih =>
    intro ys h
    simp only [mapE] at h
    cases hx : f x with
    | error e => rw [hx] at h; cases h
    | ok y =>
      rw [hx] at h
      cases hxs : mapE f xs with
      | error e => rw [hxs] at h; cases h
      | ok ys' =>
        rw [hxs] at h
        cases h
        exact List.Forall₂.cons hx (ih hxs)

theorem getColList_setColList_self (k : Val) (v : List Cell) :
    ∀ l : List (Val × List Cell), getColList k (setColList k v l) = some v := by
  intro l
  induction l with
  | nil => simp [getColList, setColList]
  | cons p rest ih =>
    by_cases hp : p.1 = k
    · simp [getColList, setColList, hp]
    · simp [getColList, setColList, hp, ih]

theorem getColList_setColList_ne (k c : Val) (v : List Cell) (hck : c ≠ k) :
    ∀ l : List (Val × List Cell), getColList c (setColList k v l) = getColList c l := by
  intro l
  induction l with
  | nil => simp [getColList, setColList, Ne.symm hck]
  | cons p rest ih =>
    by_cases hp : p.1 = k
    · have h1 : setColList k v (p :: rest) = (k, v) :: rest := by
        simp [setColList, hp]
      rw [h1]
      have h2 : getColList c ((k, v) :: rest) = getColList c rest := by
        simp [getColList, Ne.symm hck]
      have h3 : getColList c (p :: rest) = getColList c rest := by
        have hpc : p.1 ≠ c := by rw [hp]; exact Ne.symm hck
        simp [getColList, hpc]
      rw [h2, h3]
    · have h1 : setColList k v (p :: rest) = p :: setColList k v rest := by
        simp [setColList, hp]
      rw [h1]
      by_cases hc : p.1 = c
      · simp [getColList, hc]
      · simp [getColList, hc, ih]

theorem DataFrame.getCol_setCol_self (df : DataFrame) (k : Val) (v : List Cell) :
    (df.setCol k v).getCol k = some v :=
  getColList_setColList_self k v df.cols

theorem DataFrame.getCol_setCol_ne (df : DataFrame) (k c : Val) (v : List Cell)
    (hck : c ≠ k) : (df.setCol k v).getCol c = df.getCol c :=
  getColList_setColList_ne k c v hck df.cols

theorem getColList_mem {k : Val} {l : List (Val × List Cell)} {c : List Cell}
    (h : getColList k l = some c) : (k, c) ∈ l := by
  induction l with
  | nil => cases h
  | cons p rest ih =>
    by_cases hp : p.1 = k
    · rw [getColList, if_pos hp] at h
      cases h
      have hpk : (k, p.2) = p := by rw [← hp]
      rw [hpk]
      exact List.mem_cons_self p rest
    · rw [getColList, if_neg hp] at h
      exact List.mem_cons_of_mem p (ih h)

theorem DataFrame.getCol_mem {df : DataFrame} {k : Val} {c : List Cell}
    (h : df.getCol k = some c) : (k, c) ∈ df.cols :=
  getColList_mem h

theorem mem_setColList {k : Val} {v : List Cell} {q : Val × List Cell} :
    ∀ {l : List (Val × List Cell)}, q ∈ setColList k v l → q = (k, v) ∨ q ∈ l := by
  intro l
  induction l with
  | nil =>
    intro h
    rw [setColList] at h
    rcases List.mem_cons.mp h with h | h
    · exact Or.inl h
    · cases h
  | cons p rest ih =>
    intro h
    rw [setColList] at h
    by_cases hp : p.1 = k
    · rw [if_pos hp] at h
      rcases List.mem_cons.mp h with h | h
      · exact Or.inl h
      · exact Or.inr (List.mem_cons_of_mem p h)
    · rw [if_neg hp] at h
      rcases List.mem_cons.mp h with h | h
      · exact Or.inr (h ▸ List.mem_cons_self p rest)
      · rcases ih h with h' | h'
        · exact Or.inl h'
        · exact Or.inr (List.mem_cons_of_mem p h')

theorem DataFrame.setCol_wf (df : DataFrame) (k : Val) (v : List Cell)
    (hWf : df.Wf) (hv : v.length = df.nrows) :
    (df.setCol k v).Wf ∧ (df.setCol k v).nrows = df.nrows := by
  obtain ⟨cols⟩ := df
  cases cols with
  | nil =>
    constructor
    · intro p hp
      rcases List.mem_cons.mp hp with hp | hp
      · rw [hp]
        rfl
      · cases hp
    · exact hv
  | cons p rest =>
    have hnr : DataFrame.nrows ⟨p :: rest⟩ = p.2.length := rfl
    by_cases hp : p.1 = k
    · have hset : DataFrame.setCol ⟨p :: rest⟩ k v = ⟨(k, v) :: rest⟩ := by
        simp [DataFrame.setCol, setColList, hp]
      rw [hset]
      have hnr' : DataFrame.nrows ⟨(k, v) :: rest⟩ = v.length := rfl
      constructor
      · intro q hq
        rcases List.mem_cons.mp hq with hq | hq
        · rw [hq, hnr', hv]
        · rw [hnr', hv]
          exact hWf q (List.mem_cons_of_mem p hq)
      · rw [hnr', hv]
    · have hset : DataFrame.setCol ⟨p :: rest⟩ k v = ⟨p :: setColList k v rest⟩ := by
        simp [DataFrame.setCol, setColList, hp]
      rw [hset]
      have hnr' : DataFrame.nrows ⟨p :: setColList k v rest⟩ = p.2.length := rfl
      constructor
      · intro q hq
        rw [hnr', ← hnr]
        rcases List.mem_cons.mp hq with hq | hq
        · rw [hq]
          exact hWf p (List.mem_cons_self p rest)
        · rcases mem_setColList hq with hq' | hq'
          · rw [hq']
            exact hv
          · exact hWf q (List.mem_cons_of_mem p hq')
      · rw [hnr', ← hnr]

theorem selectCols_ok_mem {df : DataFrame} {ks : List Val} {d' : DataFrame}
    (h : df.selectCols ks = Except.ok d') :
    ∀ p ∈ d'.cols, df.getCol p.1 = some p.2 := by
  unfold DataFrame.selectCols at h
  cases hm : mapE (fun k =>
      match df.getCol k with
      | some c => Except.ok (k, c)
      | none => Except.error (PyErr.keyError k)) ks with
  | error e => rw [hm] at h; cases h
  | ok l =>
    rw [hm] at h
    cases h
    intro p hp
    rcases mapE_ok_mem hm p hp with ⟨k, _, hfk⟩
    cases hg : df.getCol k with
    | none => rw [hg] at hfk; cases hfk
    | some c =>
      rw [hg] at hfk
      cases hfk
      exact hg

theorem selectCols_ok_length {df : DataFrame} {ks : List Val} {d' : DataFrame}
    (h : df.selectCols ks = Except.ok d') : d'.cols.length = ks.length := by
  unfold DataFrame.selectCols at h
  cases hm : mapE (fun k =>
      match df.getCol k with
      | some c => Except.ok (k, c)
      | none => Except.error (PyErr.keyError k)) ks with
  | error e => rw [hm] at h; cases h
  | ok l =>
    rw [hm] at h
    cases h
    exact mapE_ok_length hm

theorem selectCols_wf {df : DataFrame} {ks : List Val} {d' : DataFrame}
    (h : df.selectCols ks = Except.ok d') (hWf : df.Wf) (hne : ks ≠ []) :
    d'.Wf ∧ d'.nrows = df.nrows := by
  have hmem : ∀ p ∈ d'.cols, p.2.length = df.nrows := by
    intro p hp
    exact hWf _ (DataFrame.getCol_mem (selectCols_ok_mem h p hp))
  have hlen := selectCols_ok_length h
  obtain ⟨cols'⟩ := d'
  cases hcols : cols' with
  | nil =>
    rw [hcols] at hlen
    cases ks with
    | nil => exact absurd rfl hne
    | cons a as => cases hlen
  | cons q rest =>
    subst hcols
    have hnr : DataFrame.nrows ⟨q :: rest⟩ = q.2.length := rfl
    have hq : DataFrame.nrows ⟨q :: rest⟩ = df.nrows := by
      rw [hnr]
      exact hmem q (List.mem_cons_self q rest)
    refine ⟨?_, hq⟩
    intro p hp
    rw [hq]
    exact hmem p hp

theorem kwLookup_bodyKwargs_none (opts : Kwargs) (k : String)
    (hk : createParamNames.contains k = true) :
    kwLookup (bodyKwargs opts) k = none := by
  induction opts with
  | nil => rfl
  | cons p rest ih =>
    simp only [bodyKwargs]
    by_cases hp : createParamNames.contains p.1 = true
    · rw [if_pos hp]
      exact ih
    · rw [if_neg hp]
      have hne : p.1 ≠ k := by
        intro he
        rw [he, hk] at hp
        exact hp rfl
      rw [kwLookup, if_neg hne]
      exact ih

theorem columnsFinal_ne_nil (columns : Option ColumnsArg) (t : Val) :
    columnsFinal columns t ≠ [] := by
  unfold columnsFinal
  by_cases h : t ∈ columnsInit columns
  · rw [if_pos h]
    intro hnil
    rw [hnil] at h
    cases h
  · rw [if_neg h]
    simp

theorem create_nocopy_eq (df : DataFrame) (dat fs0 t0 : Val)
    (columns : Option ColumnsArg) (kw : Kwargs) (cells : List Cell)
    (hc : df.getCol dat = some cells) :
    create df dat fs0 t0 false columns kw =
      match renderAll cells (effFigsize kw) kw with
      | Except.error e => (df, Except.error e)
      | Except.ok out => (df.setCol (effTitle kw) out, Except.ok none) := by
  simp [create, hc]

theorem create_copy_eq (df : DataFrame) (dat fs0 t0 : Val)
    (columns : Option ColumnsArg) (kw : Kwargs) (cells : List Cell)
    (hc : df.getCol dat = some cells) :
    create df dat fs0 t0 true columns kw =
      match renderAll cells (effFigsize kw) kw with
      | Except.error e => (df, Except.error e)
      | Except.ok out =>
        match (df.setCol (effTitle kw) out).selectCols
            (columnsFinal columns (effTitle kw)) with
        | Except.error e => (df, Except.error e)
        | Except.ok dfSel => (df, Except.ok (some dfSel)) := by
  simp [create, hc, columnsFinal, columnsInit]

theorem create_nocopy_render_ok (df : DataFrame) (dat fs0 t0 : Val)
    (columns : Option ColumnsArg) (kw : Kwargs) (cells out : List Cell)
    (hc : df.getCol dat = some cells)
    (hm : renderAll cells (effFigsize kw) kw = Except.ok out) :
    create df dat fs0 t0 false columns kw =
      (df.setCol (effTitle kw) out, Except.ok none) := by
  rw [create_nocopy_eq df dat fs0 t0 columns kw cells hc, hm]

theorem create_nocopy_render_error (df : DataFrame) (dat fs0 t0 : Val)
    (columns : Option ColumnsArg) (kw : Kwargs) (cells : List Cell) (e : PyErr)
    (hc : df.getCol dat = some cells)
    (hm : renderAll cells (effFigsize kw) kw = Except.error e) :
    create df dat fs0 t0 false columns kw = (df, Except.error e) := by
  rw [create_nocopy_eq df dat fs0 t0 columns kw cells hc, hm]

theorem create_copy_render_error (df : DataFrame) (dat fs0 t0 : Val)
    (columns : Option ColumnsArg) (kw : Kwargs) (cells : List Cell) (e : PyErr)
    (hc : df.getCol dat = some cells)
    (hm : renderAll cells (effFigsize kw) kw = Except.error e) :
    create df dat fs0 t0 true columns kw = (df, Except.error e) := by
  rw [create_copy_eq df dat fs0 t0 columns kw cells hc, hm]

theorem create_copy_sel_ok (df : DataFrame) (dat fs0 t0 : Val)
    (columns : Option ColumnsArg) (kw : Kwargs) (cells out : List Cell)
    (dfSel : DataFrame)
    (hc : df.getCol dat = some cells)
    (hm : renderAll cells (effFigsize kw) kw = Except.ok out)
    (hs : (df.setCol (effTitle kw) out).selectCols
        (columnsFinal columns (effTitle kw)) = Except.ok dfSel) :
    create df dat fs0 t0 true columns kw = (df, Except.ok (some dfSel)) := by
  rw [create_copy_eq df dat fs0 t0 columns kw cells hc, hm]
  show (match (df.setCol (effTitle kw) out).selectCols
      (columnsFinal columns (effTitle kw)) with
    | Except.error e => (df, Except.error e)
    | Except.ok dfSel => (df, Except.ok (some dfSel))) = (df, Except.ok (some dfSel))
  rw [hs]

theorem create_copy_sel_error (df : DataFrame) (dat fs0 t0 : Val)
    (columns : Option ColumnsArg) (kw : Kwargs) (cells out : List Cell) (e : PyErr)
    (hc : df.getCol dat = some cells)
    (hm : renderAll cells (effFigsize kw) kw = Except.ok out)
    (hs : (df.setCol (effTitle kw) out).selectCols
        (columnsFinal columns (effTitle kw)) = Except.error e) :
    create df dat fs0 t0 true columns kw = (df, Except.error e) := by
  rw [create_copy_eq df dat fs0 t0 columns kw cells hc, hm]
  show (match (df.setCol (effTitle kw) out).selectCols
      (columnsFinal columns (effTitle kw)) with
    | Except.error e => (df, Except.error e)
    | Except.ok dfSel => (df, Except.ok (some dfSel))) = (df, Except.error e)
  rw [hs]

/-! ## Claim theorems -/

/-- Claim C8: invoking the renderer (`sparkline`) on an empty sequence fails
at the minimum-value lookup (`min(data)`, the first of the
minimum-value / last-element lookups reached): whatever the option values,
the call raises the empty-`min` `ValueError` — no image reference is
produced, and no guard intercepts the empty input. -/
theorem sparkline_empty_seq_fails (point point_color point_marker point_fill
    point_size point_alpha fill fill_color fill_alpha figsize : Val)
    (kwargs : Kwargs) :
    sparkline (Cell.seq []) point point_color point_marker point_fill
        point_size point_alpha fill fill_color fill_alpha figsize kwargs =
      Except.error PyErr.valueErrorEmptyMin :=
  rfl

/-- Claim C2, counterexample: with the process-wide display limits at
`(200, 100)` before the call — a non-default `max_colwidth` — showing a
zero-row frame leaves the limits different from their prior values, because
`column_reset` restores the library defaults, not the caller's values. -/
theorem show_restore_counterexample :
    (show_df ⟨200, 100⟩ ⟨[(Val.str "a", [])]⟩ false).1 ≠ (⟨200, 100⟩ : PdOptions) := by
  decide

/-- Claim C2, amended: after either presentation path (`show` or `to_html`)
returns, both touched process-wide display limits equal the pandas library
defaults — hence they equal their pre-invocation values exactly when those
were already the defaults — for every dataframe, including zero-row ones,
and every prior options state. -/
theorem display_limits_reset_to_defaults (o : PdOptions) (df : DataFrame)
    (index : Bool) (fn : String) :
    (show_df o df index).1 = defaultOptions ∧ (to_html o df fn).1 = defaultOptions :=
  ⟨rfl, rfl⟩

/-- Claim C9: `to_html` writes to the file named by the caller-supplied path
with `.html` appended, and the content is exactly the fixed document head
(doctype, `head` with the inline stylesheet, opening `body`), then the
un-escaped HTML table string, then the closing body/html tail. -/
theorem to_html_writes_wrapped_table (o : PdOptions) (df : DataFrame)
    (filename : String) :
    (to_html o df filename).2 =
      (filename ++ ".html",
       html_head ++ pandasToHtml (column_sparklines o) df true false ++ html_tail) ∧
    html_head =
      "<!DOCTYPE html>\n            <html>\n            <head>\n            <style>" ++
        jupyter_table_css ++ "</style>\n            </head>\n            <body>" ∧
    html_tail = "</body>\n               </html>" :=
  ⟨rfl, rfl, rfl⟩

/-- Claim C3 (code bug): with point-marking switched off (`point=False`) on
the non-empty sequence `[0, 1]`, the renderer still issues the terminal
marker command — at the rightmost position `x = 1` with the last value
`y = 1` and the default marker styling — because the source never reads the
`point` flag (the `plt.plot` marker call at line 113 is unguarded),
contradicting its own docstring `point : bool, show point marker`. -/
theorem sparkline_point_flag_ignored :
    pointCmds (sparkline (Cell.seq [0, 1]) (Val.bool false) (Val.str "red")
        (Val.str ".") (Val.str "red") (Val.num 6) (Val.num 1) (Val.bool true)
        (Val.str "blue") (Val.num (1/10)) (Val.size 4 (1/4)) []) =
      [PlotCmd.pointAt 1 1 (Val.str "red") (Val.str ".") (Val.str "red")
        (Val.num 6) (Val.num 1) false] := by
  decide

/-- Claim C4 (code bug): with the area fill switched off (`fill=False`) on
the non-empty sequence `[0, 1]`, the renderer still issues the
`fill_between` command — shading between the data line and the sequence's
own minimum (`[0, 0]`, i.e. `plot_len * [plot_min]`) across the span
`range(plot_len)` — because the source never reads the `fill` flag (the
`fill_between` call at line 109 is unguarded), contradicting its own
docstring `fill : bool, show fill below line`. -/
theorem sparkline_fill_flag_ignored :
    fillCmds (sparkline (Cell.seq [0, 1]) (Val.bool true) (Val.str "red")
        (Val.str ".") (Val.str "red") (Val.num 6) (Val.num 1) (Val.bool false)
        (Val.str "blue") (Val.num (1/10)) (Val.size 4 (1/4)) []) =
      [PlotCmd.fillBetween [0, 1] [0, 1] [0, 0] (Val.str "blue")
        (Val.num (1/10))] := by
  rfl

/-- Claim C1, counterexample: the caller bundles `figsize=(8, 1)` and
`title='spk'` into the generic options of `create(wdf, 'x', **opts)`. Python
keyword binding routes both keys to the declared parameters, so the options
map reaching the body is empty and the claimed override never fires: no
`spk` column is created, the destination is the default `sparklines` column,
its cells are rendered at the figsize the body computed from its (empty)
kwargs — the default `(4, 0.25)`, not the bundled `(8, 1)` — refuting
"that value ... is the one used for rendering and for the destination
column name". -/
theorem create_kwargs_override_counterexample :
    kwLookup wKw "figsize" = some (Val.size 8 1) ∧
    kwLookup wKw "title" = some (Val.str "spk") ∧
    bodyKwargs wKw = [] ∧
    createCall wdf (Val.str "x") false none wKw =
      (wdf.setCol (Val.str "sparklines") wOutD, Except.ok none) ∧
    (createCall wdf (Val.str "x") false none wKw).1.getCol (Val.str "spk") = none ∧
    Val.size 8 1 ≠ effFigsize (bodyKwargs wKw) :=
  ⟨rfl, rfl, rfl, rfl, by decide, by decide⟩

/-- Claim C1, amended: the generic passthrough options can never contain a
`figsize` or `title` key by the time they reach `create`'s body — Python
binds those keywords to the declared parameters at the call boundary — so
the override branches of lines 158–165 never fire in the program: whatever
the caller passed, the body's option lookups fail, rendering uses the fixed
default figsize `(4, 0.25)`, the destination column is named `sparklines`,
and the explicit `figsize`/`title` parameters are unconditionally discarded
(`create` is insensitive to them). -/
theorem create_explicit_params_discarded
    (df : DataFrame) (dat : Val) (copy : Bool) (columns : Option ColumnsArg)
    (opts : Kwargs) (hno : collides opts = false) :
    kwLookup (bodyKwargs opts) "figsize" = none ∧
    kwLookup (bodyKwargs opts) "title" = none ∧
    effFigsize (bodyKwargs opts) = Val.size 4 (1/4) ∧
    effTitle (bodyKwargs opts) = Val.str "sparklines" ∧
    createCall df dat copy columns opts =
      create df dat (kwArgD opts "figsize" (Val.bool false))
        (kwArgD opts "title" (Val.str "sparklines")) copy columns
        (bodyKwargs opts) ∧
    ∀ fs0 t0 fs1 t1 : Val,
      create df dat fs0 t0 copy columns (bodyKwargs opts) =
        create df dat fs1 t1 copy columns (bodyKwargs opts) := by
  have hf : kwLookup (bodyKwargs opts) "figsize" = none :=
    kwLookup_bodyKwargs_none opts "figsize" rfl
  have ht : kwLookup (bodyKwargs opts) "title" = none :=
    kwLookup_bodyKwargs_none opts "title" rfl
  refine ⟨hf, ht, ?_, ?_, ?_, ?_⟩
  · simp [effFigsize, hf]
  · simp [effTitle, ht]
  · simp [createCall, hno]
  · intro fs0 t0 fs1 t1
    rfl

/-- Witness for the amended C1 at a caller-side options map that does carry
both keys: the call is collision-free, yet both keys are stripped before the
body and the defaults win. -/
theorem create_explicit_params_discarded_w :
    collides wKw = false ∧
    (kwLookup (bodyKwargs wKw) "figsize" = none ∧
     kwLookup (bodyKwargs wKw) "title" = none ∧
     effFigsize (bodyKwargs wKw) = Val.size 4 (1/4) ∧
     effTitle (bodyKwargs wKw) = Val.str "sparklines" ∧
     createCall wdf (Val.str "x") false none wKw =
       create wdf (Val.str "x") (kwArgD wKw "figsize" (Val.bool false))
         (kwArgD wKw "title" (Val.str "sparklines")) false none
         (bodyKwargs wKw) ∧
     ∀ fs0 t0 fs1 t1 : Val,
       create wdf (Val.str "x") fs0 t0 false none (bodyKwargs wKw) =
         create wdf (Val.str "x") fs1 t1 false none (bodyKwargs wKw)) :=
  ⟨rfl, create_explicit_params_discarded wdf (Val.str "x") false none wKw rfl⟩

/-- Claim C5: copy-mode `create` never mutates its input — the caller's frame
is unchanged after the call in every copy-mode run — and a normally
completing copy-mode run returns a (new) dataframe rather than `None`. -/
theorem create_copy_no_mutation
    (df : DataFrame) (dat fs0 t0 : Val) (columns : Option ColumnsArg) (kw : Kwargs)
    (h : exceptOk (create df dat fs0 t0 true columns kw).2 = true) :
    (create df dat fs0 t0 true columns kw).1 = df ∧
    ∃ d', (create df dat fs0 t0 true columns kw).2 = Except.ok (some d') := by
  cases hc : df.getCol dat with
  | none =>
    simp [create, hc, exceptOk] at h
  | some cells =>
    cases hm : renderAll cells (effFigsize kw) kw with
    | error e =>
      rw [create_copy_render_error df dat fs0 t0 columns kw cells e hc hm] at h
      simp [exceptOk] at h
    | ok out =>
      cases hs : (df.setCol (effTitle kw) out).selectCols
          (columnsFinal columns (effTitle kw)) with
      | error e =>
        rw [create_copy_sel_error df dat fs0 t0 columns kw cells out e hc hm hs] at h
        simp [exceptOk] at h
      | ok dfSel =>
        rw [create_copy_sel_ok df dat fs0 t0 columns kw cells out dfSel hc hm hs]
        exact ⟨rfl, dfSel, rfl⟩

/-- Witness for C5: a concrete copy-mode run that completes normally. -/
theorem create_copy_no_mutation_w :
    exceptOk (create wdf (Val.str "x") (Val.size 4 (1/4)) (Val.str "sparklines")
        true none []).2 = true ∧
    ((create wdf (Val.str "x") (Val.size 4 (1/4)) (Val.str "sparklines")
        true none []).1 = wdf ∧
     ∃ d', (create wdf (Val.str "x") (Val.size 4 (1/4)) (Val.str "sparklines")
        true none []).2 = Except.ok (some d')) :=
  ⟨rfl,
   create_copy_no_mutation wdf (Val.str "x") (Val.size 4 (1/4))
     (Val.str "sparklines") none [] rfl⟩

/-- Claim C6: non-copy `create` mutates the input frame by setting exactly
the destination column — the run ends with the frame equal to the input with
the destination column overwritten/appended, the destination column holds the
rendered cells, every other column is unchanged — and returns `None`. -/
theorem create_nocopy_inplace
    (df : DataFrame) (dat fs0 t0 : Val) (columns : Option ColumnsArg)
    (kw : Kwargs) (cells out : List Cell)
    (hc : df.getCol dat = some cells)
    (hm : renderAll cells (effFigsize kw) kw = Except.ok out) :
    create df dat fs0 t0 false columns kw =
      (df.setCol (effTitle kw) out, Except.ok none) ∧
    (df.setCol (effTitle kw) out).getCol (effTitle kw) = some out ∧
    ∀ c, c ≠ effTitle kw →
      (df.setCol (effTitle kw) out).getCol c = df.getCol c := by
  refine ⟨?_, DataFrame.getCol_setCol_self df _ out,
    fun c hcne => DataFrame.getCol_setCol_ne df _ c out hcne⟩
  rw [create_nocopy_eq df dat fs0 t0 columns kw cells hc, hm]

/-- Witness for C6 at a concrete frame with default options. -/
theorem create_nocopy_inplace_w :
    (wdf.getCol (Val.str "x") = some [Cell.seq [1, 2]] ∧
     renderAll [Cell.seq [1, 2]] (effFigsize []) [] = Except.ok wOutD) ∧
    (create wdf (Val.str "x") (Val.size 4 (1/4)) (Val.str "sparklines") false none [] =
       (wdf.setCol (effTitle []) wOutD, Except.ok none) ∧
     (wdf.setCol (effTitle []) wOutD).getCol (effTitle []) = some wOutD ∧
     ∀ c, c ≠ effTitle [] →
       (wdf.setCol (effTitle []) wOutD).getCol c = wdf.getCol c) :=
  ⟨⟨rfl, rfl⟩,
   create_nocopy_inplace wdf (Val.str "x") (Val.size 4 (1/4))
     (Val.str "sparklines") none [] [Cell.seq [1, 2]] wOutD rfl rfl⟩

/-- Claim C10: copy-mode `create` with `columns` left at `None` returns a
frame consisting of exactly one column — the destination sparklines column —
with every original column dropped. -/
theorem create_copy_default_columns
    (df : DataFrame) (dat fs0 t0 : Val) (kw : Kwargs) (cells out : List Cell)
    (hc : df.getCol dat = some cells)
    (hm : renderAll cells (effFigsize kw) kw = Except.ok out) :
    create df dat fs0 t0 true none kw =
      (df, Except.ok (some ⟨[(effTitle kw, out)]⟩)) := by
  have hcf : columnsFinal none (effTitle kw) = [effTitle kw] := by
    simp [columnsFinal, columnsInit]
  have hsel : (df.setCol (effTitle kw) out).selectCols
      (columnsFinal none (effTitle kw)) = Except.ok ⟨[(effTitle kw, out)]⟩ := by
    rw [hcf]
    simp [DataFrame.selectCols, mapE, DataFrame.getCol_setCol_self]
  exact create_copy_sel_ok df dat fs0 t0 none kw cells out
    ⟨[(effTitle kw, out)]⟩ hc hm hsel

/-- Witness for C10 at a concrete two-column frame: the returned copy holds
only the `sparklines` column. -/
theorem create_copy_default_columns_w :
    (wdf.getCol (Val.str "x") = some [Cell.seq [1, 2]] ∧
     renderAll [Cell.seq [1, 2]] (effFigsize []) [] = Except.ok wOutD) ∧
    create wdf (Val.str "x") (Val.size 4 (1/4)) (Val.str "sparklines") true none [] =
      (wdf, Except.ok (some ⟨[(effTitle [], wOutD)]⟩)) :=
  ⟨⟨rfl, rfl⟩,
   create_copy_default_columns wdf (Val.str "x") (Val.size 4 (1/4))
     (Val.str "sparklines") [] [Cell.seq [1, 2]] wOutD rfl rfl⟩

/-- Claim C7: a normally completing `create` run, in either mode, preserves
row count and row order: the post-state of the input frame and any returned
frame are well-formed with the input's row count; each of their columns is
either an original column unchanged (hence in original row order) or the
rendered column, whose cells correspond pointwise, in order, to the source
column's cells. -/
theorem create_preserves_rows
    (df : DataFrame) (dat fs0 t0 : Val) (b : Bool) (columns : Option ColumnsArg)
    (kw : Kwargs) (cells out : List Cell) (post : DataFrame) (ret : Option DataFrame)
    (hWf : df.Wf)
    (hc : df.getCol dat = some cells)
    (hm : renderAll cells (effFigsize kw) kw = Except.ok out)
    (hrun : create df dat fs0 t0 b columns kw = (post, Except.ok ret)) :
    post.Wf ∧ post.nrows = df.nrows ∧
    List.Forall₂ (fun c o => renderCell c (effFigsize kw) kw = Except.ok o) cells out ∧
    (∀ k l, post.getCol k = some l → df.getCol k = some l ∨ l = out) ∧
    ∀ d', ret = some d' → d'.Wf ∧ d'.nrows = df.nrows ∧
      ∀ k l, d'.getCol k = some l → df.getCol k = some l ∨ l = out := by
  have hforall₂ : List.Forall₂
      (fun c o => renderCell c (effFigsize kw) kw = Except.ok o) cells out :=
    mapE_ok_forall₂ hm
  have hlen : out.length = cells.length := mapE_ok_length hm
  have hcl : cells.length = df.nrows := hWf _ (DataFrame.getCol_mem hc)
  have hout : out.length = df.nrows := hlen.trans hcl
  obtain ⟨hwfset, hnrset⟩ := DataFrame.setCol_wf df (effTitle kw) out hWf hout
  have hcharSet : ∀ k l, (df.setCol (effTitle kw) out).getCol k = some l →
      df.getCol k = some l ∨ l = out := by
    intro k l hkl
    by_cases hk : k = effTitle kw
    · subst hk
      rw [DataFrame.getCol_setCol_self] at hkl
      cases hkl
      exact Or.inr rfl
    · rw [DataFrame.getCol_setCol_ne df _ k out hk] at hkl
      exact Or.inl hkl
  cases b with
  | false =>
    rw [create_nocopy_render_ok df dat fs0 t0 columns kw cells out hc hm] at hrun
    have h1 : df.setCol (effTitle kw) out = post := congrArg Prod.fst hrun
    have h2 : (Except.ok none : Except PyErr (Option DataFrame)) = Except.ok ret :=
      congrArg Prod.snd hrun
    have h2' : (none : Option DataFrame) = ret := by
      cases h2
      rfl
    subst h1
    subst h2'
    refine ⟨hwfset, hnrset, hforall₂, hcharSet, ?_⟩
    intro d' hd'
    cases hd'
  | true =>
    cases hs : (df.setCol (effTitle kw) out).selectCols
        (columnsFinal columns (effTitle kw)) with
    | error e =>
      rw [create_copy_sel_error df dat fs0 t0 columns kw cells out e hc hm hs] at hrun
      have h2 : (Except.error e : Except PyErr (Option DataFrame)) = Except.ok ret :=
        congrArg Prod.snd hrun
      cases h2
    | ok dfSel =>
      rw [create_copy_sel_ok df dat fs0 t0 columns kw cells out dfSel hc hm hs] at hrun
      have h1 : df = post := congrArg Prod.fst hrun
      have h2 : (Except.ok (some dfSel) : Except PyErr (Option DataFrame)) =
          Except.ok ret := congrArg Prod.snd hrun
      have h2' : some dfSel = ret := by
        cases h2
        rfl
      subst h1
      subst h2'
      obtain ⟨hwfSel, hnrSel⟩ :=
        selectCols_wf hs hwfset (columnsFinal_ne_nil columns (effTitle kw))
      refine ⟨hWf, rfl, hforall₂, fun k l hkl => Or.inl hkl, ?_⟩
      intro d' hd'
      cases hd'
      refine ⟨hwfSel, hnrSel.trans hnrset, ?_⟩
      intro k l hkl
      exact hcharSet k l (selectCols_ok_mem hs (k, l) (DataFrame.getCol_mem hkl))

/-- Witness for C7: a concrete copy-mode run requesting the `id` column. -/
theorem create_preserves_rows_w :
    (wdf.Wf ∧
     wdf.getCol (Val.str "x") = some [Cell.seq [1, 2]] ∧
     renderAll [Cell.seq [1, 2]] (effFigsize []) [] = Except.ok wOutD ∧
     create wdf (Val.str "x") (Val.size 4 (1/4)) (Val.str "sparklines") true
       (some (ColumnsArg.lst [Val.str "id"])) [] = (wC7.1, Except.ok wC7ret)) ∧
    (wC7.1.Wf ∧ wC7.1.nrows = wdf.nrows ∧
     List.Forall₂ (fun c o => renderCell c (effFigsize []) [] = Except.ok o)
       [Cell.seq [1, 2]] wOutD ∧
     (∀ k l, wC7.1.getCol k = some l → wdf.getCol k = some l ∨ l = wOutD) ∧
     ∀ d', wC7ret = some d' → d'.Wf ∧ d'.nrows = wdf.nrows ∧
       ∀ k l, d'.getCol k = some l → wdf.getCol k = some l ∨ l = wOutD) :=
  ⟨⟨by decide, rfl, rfl, rfl⟩,
   create_preserves_rows wdf (Val.str "x") (Val.size 4 (1/4)) (Val.str "sparklines")
     true (some (ColumnsArg.lst [Val.str "id"])) [] [Cell.seq [1, 2]] wOutD
     wC7.1 wC7ret (by decide) rfl rfl rfl⟩

end Sparklines
